import Mathlib

/-!
# Verification of the NotiGenie intent-to-operation pipeline

A shallow embedding of the core of the NotiGenie repository:

* `NotionAdapter` (`cloud_functions/core/interfaces/gateways/notion_adapter.py`):
  property formatting (`_format_properties_for_api`), property-type resolution
  (`_resolve_property_type`), database-id resolution (`_resolve_database_id`),
  the filter construction inside `search_database`, and the payload
  construction of `create_page`.
* `FirestoreAdapter` (`cloud_functions/core/interfaces/gateways/firestore_adapter.py`):
  `get_recent_history` and `add_interaction` (the transaction body, modelled as
  a pure state transformation on the session document; timestamps are modelled
  as integer epoch seconds).
* `ProcessMessageUseCase.execute` (`cloud_functions/core/use_cases/process_message.py`)
  and `LineController._handle_text_message`
  (`cloud_functions/core/interfaces/controllers/line_controller.py`), with the
  LLM collaborator modelled as an oracle whose calls may raise.

Python values flowing through the adapters (JSON-derived dictionaries, strings,
booleans, numbers, lists, None) are modelled by the inductive type `PyVal`.
Python dictionaries are association lists with string keys, preserving
insertion order, as Python dictionaries do.
-/

namespace NotiGenie

/-- A Python value as it occurs in the adapters: JSON-like data.
Numbers (int and float alike) are modelled as rationals. -/
inductive PyVal where
  | vStr (s : String)
  | vBool (b : Bool)
  | vNum (q : Rat)
  | vList (xs : List PyVal)
  | vDict (kvs : List (String × PyVal))
  | vNone
deriving Repr

/-- A Python dictionary with string keys (association list, insertion order). -/
abbrev PyDict := List (String × PyVal)

/-- Key lookup in a Python dictionary (first matching key). -/
def pyLookup (k : String) : PyDict → Option PyVal
  | [] => none
  | p :: ps => if p.1 = k then some p.2 else pyLookup k ps

/-- `d.get(k)` on a Python dict value; `none` models Python `None`
(also returned when the value is not a dictionary). -/
def pyGet (d : PyVal) (k : String) : Option PyVal :=
  match d with
  | .vDict kvs => pyLookup k kvs
  | _ => none

/-- `d.get(k, dflt)` on a Python dict value. -/
def pyGetD (d : PyVal) (k : String) (dflt : PyVal) : PyVal :=
  (pyGet d k).getD dflt

/-- `k in d` for a Python dict (membership among the string keys). -/
def hasKey (d : PyDict) (k : String) : Bool :=
  (pyLookup k d).isSome

/-- Python truthiness of a value (`if value:`). -/
def truthy : PyVal → Bool
  | .vStr s => !(s == "")
  | .vBool b => b
  | .vNum q => if q = 0 then false else true
  | .vList xs => !xs.isEmpty
  | .vDict d => !d.isEmpty
  | .vNone => false

/-- The property type returned by `_resolve_property_type` is compared against
string literals (`prop_type == "checkbox"` …) and used as a dictionary key
(`prop_type in value`).  Both only succeed when it is a string; `typeTag`
extracts that string. -/
def typeTag (t : Option PyVal) : Option String :=
  match t with
  | some (.vStr s) => some s
  | _ => none

/-- `NotionAdapter._resolve_database_id`: logical database name → remote id.
`if not database_name` is the Python falsiness test on the name;
`if val` is the truthiness test on the stored id. -/
def resolveDatabaseId (m : PyDict) (databaseName : String) : Option String :=
  if databaseName = "" then none
  else
    match pyLookup databaseName m with
    | some dbInfo =>
      match pyGet dbInfo "id" with
      | some (.vStr v) => if v = "" then none else some v.trim
      | _ => none
    | none => none

/-- `NotionAdapter._resolve_property_type`: property name → declared type tag.
Returns Python `None` when the database name is falsy or unknown, when the
property is absent, when its config dict is falsy, or when the config has no
`"type"` key. -/
def resolvePropertyType (m : PyDict) (databaseName propertyName : String) :
    Option PyVal :=
  if databaseName = "" then none
  else
    match pyLookup databaseName m with
    | none => none
    | some dbInfo =>
      let props := pyGetD dbInfo "properties" (.vDict [])
      match pyGet props propertyName with
      | some cfg => if truthy cfg then pyGet cfg "type" else none
      | none => none

/-- The pass-through test at the top of the `_format_properties_for_api` loop:
`isinstance(value, dict) and prop_type in value`. -/
def alreadyWrapped (t : Option PyVal) (v : PyVal) : Bool :=
  match v, typeTag t with
  | .vDict d, some s => hasKey d s
  | _, _ => false

/-- `float(value)` restricted to the values the adapter feeds it: numbers and
booleans convert, anything else raises (`ValueError`/`TypeError`, modelled as
`none`).  String parsing is modelled for plain decimal literals. -/
def pyFloat : PyVal → Option Rat
  | .vNum q => some q
  | .vBool b => some (if b then 1 else 0)
  | .vStr s =>
    let s := s.trim
    let (sign, digits) :=
      if s.startsWith "-" then ((-1 : Rat), s.drop 1)
      else if s.startsWith "+" then ((1 : Rat), s.drop 1) else ((1 : Rat), s)
    match digits.split (fun c => c = '.') with
    | [intPart] =>
      if intPart ≠ "" ∧ intPart.all Char.isDigit then
        some (sign * (intPart.toNat! : Rat))
      else none
    | [intPart, fracPart] =>
      if (intPart ++ fracPart) ≠ "" ∧ intPart.all Char.isDigit ∧
          fracPart.all Char.isDigit then
        some (sign * ((intPart ++ fracPart).toNat! : Rat) /
          ((10 : Rat) ^ fracPart.length))
      else none
    | _ => none
  | _ => none

/-- The title wire wrapper `{"title": [{"text": {"content": s}}]}`. -/
def titleWrapper (s : String) : PyVal :=
  .vDict [("title", .vList [.vDict [("text", .vDict [("content", .vStr s)])]])]

/-- The per-type conversion chain of `_format_properties_for_api` (the
`if prop_type == …` ladder, reached when the value is not already wrapped). -/
def convertValue (t : Option PyVal) (v : PyVal) : PyVal :=
  if typeTag t = some "title" then
    match v with
    | .vStr s => titleWrapper s
    | _ => v
  else if typeTag t = some "select" then
    match v with
    | .vStr s => .vDict [("select", .vDict [("name", .vStr s)])]
    | _ => v
  else if typeTag t = some "multi_select" then
    match v with
    | .vList xs => .vDict [("multi_select", .vList (xs.map (fun x => .vDict [("name", x)])))]
    | .vStr s => .vDict [("multi_select", .vList [.vDict [("name", .vStr s)]])]
    | _ => v
  else if typeTag t = some "date" then
    match v with
    | .vStr s => .vDict [("date", .vDict [("start", .vStr s)])]
    | _ => v
  else if typeTag t = some "checkbox" then .vDict [("checkbox", .vBool (truthy v))]
  else if typeTag t = some "rich_text" then
    match v with
    | .vStr s => .vDict [("rich_text", .vList [.vDict [("text", .vDict [("content", .vStr s)])]])]
    | _ => v
  else if typeTag t = some "number" then
    match pyFloat v with
    | some q => .vDict [("number", .vNum q)]
    | none => v
  else if typeTag t = some "url" then .vDict [("url", v)]
  else if typeTag t = some "status" then
    match v with
    | .vStr s => .vDict [("status", .vDict [("name", .vStr s)])]
    | _ => v
  else v

/-- One iteration of the `_format_properties_for_api` loop body for a single
property value of resolved type `t`. -/
def formatValue (t : Option PyVal) (v : PyVal) : PyVal :=
  if alreadyWrapped t v then v else convertValue t v

/-- `NotionAdapter._format_properties_for_api`: each property value is
converted according to its resolved type (the Python loop over a dict with
unique keys is a map over the association list). -/
def formatPropertiesForApi (m : PyDict) (databaseName : String)
    (properties : PyDict) : PyDict :=
  properties.map (fun p => (p.1, formatValue (resolvePropertyType m databaseName p.1) p.2))

/-- The body of the `filter_conditions` loop in `NotionAdapter.search_database`
for one `(prop, value)` condition whose resolved type is `t`: the predicate
appended to `filters`, or `none` when nothing is appended. -/
def buildFilterEntry (t : Option PyVal) (prop : String) (value : PyVal) :
    Option PyVal :=
  if typeTag t = some "checkbox" then
    some (.vDict [("property", .vStr prop), ("checkbox", .vDict [("equals", value)])])
  else if typeTag t = some "select" then
    some (.vDict [("property", .vStr prop), ("select", .vDict [("equals", value)])])
  else if typeTag t = some "status" then
    some (.vDict [("property", .vStr prop), ("status", .vDict [("equals", value)])])
  else if typeTag t = some "date" then
    match value with
    | .vDict _ => some (.vDict [("property", .vStr prop), ("date", value)])
    | _ => some (.vDict [("property", .vStr prop), ("date", .vDict [("equals", value)])])
  else
    match value with
    | .vStr _ => some (.vDict [("property", .vStr prop), ("rich_text", .vDict [("contains", value)])])
    | _ => none

/-- The `filter_conditions` loop of `search_database` over the parsed
conditions mapping: each condition contributes its type-dispatched predicate,
conditions with unresolved type and non-string value contribute nothing. -/
def buildConditionFilters (m : PyDict) (databaseName : String)
    (conditions : PyDict) : List PyVal :=
  conditions.filterMap
    (fun p => buildFilterEntry (resolvePropertyType m databaseName p.1) p.1 p.2)

/-! ## Conversation Memory (`FirestoreAdapter`)

`get_recent_history` and the transaction body of `add_interaction`, modelled
as pure functions of the stored session document.  Firestore timestamps are
modelled as integer epoch seconds (`diff.total_seconds()` becomes integer
subtraction); `firestore.SERVER_TIMESTAMP` is modelled as the write time.
Remote-storage exceptions (caught and turned into an empty read / a skipped
write) are outside the embedding. -/

/-- One session document: the `history` field and the `updated_at` field
(`none` when the field is missing). -/
structure SessionDoc where
  history : List PyVal
  updatedAt : Option Int
deriving Repr

/-- The validity test applied to each stored history item in both
`get_recent_history` and `add_interaction`:
`isinstance(item, dict) and 'role' in item and 'parts' in item`. -/
def validTurn : PyVal → Bool
  | .vDict d => hasKey d "role" && hasKey d "parts"
  | _ => false

/-- `FirestoreAdapter.get_recent_history` for one session, given the current
time `now` in epoch seconds.  `doc = none` models a missing document, and
`dbOk = false` models an uninitialized Firestore client. -/
def getRecentHistory (dbOk : Bool) (now : Int) (limitMinutes : Int)
    (doc : Option SessionDoc) : List PyVal :=
  if !dbOk then []
  else
    match doc with
    | none => []
    | some d =>
      match d.updatedAt with
      | none => []
      | some ts =>
        if now - ts > limitMinutes * 60 then []
        else d.history.filter validTurn

/-- The `{"role": "user", "parts": [user_message]}` turn appended by
`add_interaction`. -/
def userTurn (userMessage : String) : PyVal :=
  .vDict [("role", .vStr "user"), ("parts", .vList [.vStr userMessage])]

/-- The `{"role": "model", "parts": [model_response]}` turn appended by
`add_interaction`. -/
def modelTurn (modelResponse : String) : PyVal :=
  .vDict [("role", .vStr "model"), ("parts", .vList [.vStr modelResponse])]

/-- The `current_history` base computed inside the `add_interaction`
transaction: the stored valid turns when the window is still fresh, an empty
list when the document is absent, the timestamp is missing, or the window has
expired. -/
def addBase (now : Int) (limitMinutes : Int) (doc : Option SessionDoc) :
    List PyVal :=
  match doc with
  | none => []
  | some d =>
    match d.updatedAt with
    | none => []
    | some ts =>
      if now - ts ≤ limitMinutes * 60 then d.history.filter validTurn
      else []

/-- Python's `xs[-n:]` for a non-negative `n` (note `xs[-0:]` is all of
`xs`). -/
def pySliceLast (n : Nat) (xs : List PyVal) : List PyVal :=
  if n = 0 then xs else xs.drop (xs.length - n)

/-- The new `history` field written by the `add_interaction` transaction:
append the two new turns to the base, then trim to the configured maximum
(`new_history[-max_history_length:]`). -/
def newWindow (now : Int) (limitMinutes : Int) (maxHistoryLength : Nat)
    (doc : Option SessionDoc) (userMessage modelResponse : String) :
    List PyVal :=
  let newHistory := addBase now limitMinutes doc ++
    [userTurn userMessage, modelTurn modelResponse]
  if maxHistoryLength < newHistory.length then
    pySliceLast maxHistoryLength newHistory
  else newHistory

/-- `FirestoreAdapter.add_interaction` as a transformation of the stored
session document (`transaction.set` overwrites both fields;
`SERVER_TIMESTAMP` is the write time `now`). -/
def addInteraction (dbOk : Bool) (now : Int) (limitMinutes : Int)
    (maxHistoryLength : Nat) (doc : Option SessionDoc)
    (userMessage modelResponse : String) : Option SessionDoc :=
  if !dbOk then doc
  else some
    { history := newWindow now limitMinutes maxHistoryLength doc
        userMessage modelResponse
      updatedAt := some now }

/-- A finite sequence of `add_interaction` calls, each with its own wall-clock
time: `(now, userMessage, modelResponse)` triples applied in order. -/
def runInteractions (limitMinutes : Int) (maxHistoryLength : Nat)
    (doc : Option SessionDoc) (steps : List (Int × String × String)) :
    Option SessionDoc :=
  steps.foldl
    (fun d s => addInteraction true s.1 limitMinutes maxHistoryLength d s.2.1 s.2.2)
    doc

/-- The length of the stored Conversation Window. -/
def storedLength (doc : Option SessionDoc) : Nat :=
  match doc with
  | none => 0
  | some d => d.history.length

/-! ## `search_database` resolution and `create_page` payload construction

`uuid.UUID` (a Python standard-library constructor) is abstracted as a
parameter `uuidParse : String → Option String` returning the normalized dashed
form, or `none` when the string is not a valid UUID (`ValueError`). -/

/-- The rendering of `list(self.notion_database_mapping.keys())` inside the
"not found" message of `search_database`. -/
def keysRepr (m : PyDict) : String :=
  "[" ++ String.intercalate ", " (m.map (fun p => "'" ++ p.1 ++ "'")) ++ "]"

/-- `search_database` from its entry through database-name resolution and the
UUID format check: an explicit error result, or the resolved database id
(`none` when no database name was supplied, routing to the global search
endpoint). -/
def searchResolvePhase (clientOk : Bool) (uuidParse : String → Option String)
    (m : PyDict) (databaseName : Option String) :
    Except String (Option String) :=
  if !clientOk then .error "Notion Client not initialized"
  else
    match databaseName with
    | some n =>
      if n ≠ "" then
        match resolveDatabaseId m n with
        | none => .error ("Database '" ++ n ++
            "' not found in configuration. Available keys: " ++ keysRepr m)
        | some dbId =>
          match uuidParse dbId with
          | none => .error ("Invalid Database ID format: " ++ dbId)
          | some normId => .ok (some normId)
      else .ok none
    | none => .ok none

/-- The title-property-name resolution in `create_page`: the first schema
property declared with type `"title"`, defaulting to `"名前"`. -/
def resolveTitleProperty (m : PyDict) (databaseName : String) : String :=
  match pyLookup databaseName m with
  | none => "名前"
  | some dbInfo =>
    match pyGetD dbInfo "properties" (.vDict []) with
    | .vDict kvs =>
      match kvs.find? (fun p => typeTag (pyGet p.2 "type") == some "title") with
      | some p => p.1
      | none => "名前"
    | _ => "名前"

/-- Python dict assignment `d[k] = v`: replace in place when the key exists,
append otherwise. -/
def dictSet (d : PyDict) (k : String) (v : PyVal) : PyDict :=
  if hasKey d k then d.map (fun p => if p.1 = k then (k, v) else p)
  else d ++ [(k, v)]

/-- `NotionAdapter.create_page` up to the properties payload handed to
`pages.create`: resolution errors, or the formatted payload with the explicit
`title` argument written over the resolved title property last. -/
def createPage (clientOk : Bool) (uuidParse : String → Option String)
    (m : PyDict) (databaseName title : String) (properties : Option PyDict) :
    Except String PyDict :=
  if !clientOk then .error "Notion Client not initialized"
  else
    match resolveDatabaseId m databaseName with
    | none => .error ("Database '" ++ databaseName ++ "' not found.")
    | some dbId =>
      match uuidParse dbId with
      | none => .error ("Invalid Database ID for " ++ databaseName)
      | some _ =>
        let props := properties.getD []
        let formatted := formatPropertiesForApi m databaseName props
        .ok (dictSet formatted (resolveTitleProperty m databaseName)
          (titleWrapper title))

/-! ## Orchestrator (`ProcessMessageUseCase.execute`) and controller

The LLM collaborator is an oracle whose three calls may raise (`Except`);
the session repository appears as the supplied `history` (its
`get_recent_history` result) plus an abstract interaction log to which
`add_interaction` appends `(utterance, response)` pairs.  The remote store's
four tools are a total oracle (`NotionAdapter` converts its own failures to
error-result values, it does not raise).  The controller's reply-timeout
branch involves real time and is outside the embedding; the synchronous path
is modelled. -/

/-- One structured tool call produced by `generate_tool_calls`. -/
structure ToolCall where
  name : String
  args : PyVal
deriving Repr

/-- One `{"name": …, "result": …}` entry of `all_tool_results`. -/
structure ToolResult where
  name : String
  result : PyVal
deriving Repr

/-- The LLM collaborator (`ILanguageModel`): each call either returns or
raises an unexpected exception. -/
structure LangModel where
  selectDatabases : String → String → List PyVal → Except String (List String)
  generateToolCalls : String → String → PyVal → List PyVal → Except String (List ToolCall)
  generateResponse : String → List ToolResult → List PyVal → Except String String

/-- The keys of `available_tools` in `ProcessMessageUseCase.execute`. -/
def toolNames : List String :=
  ["search_database", "create_page", "update_page", "append_block"]

/-- The per-database loop of `execute`: skip names with a missing or falsy
schema, synthesize tool calls for the rest, execute those whose name is an
available tool, and collect the results together with the list of database
names for which the Synthesizer was invoked. -/
def runDbLoop (lm : LangModel) (tools : String → PyVal → PyVal)
    (schemas : PyDict) (history : List PyVal) (u currentDate : String) :
    List String → Except String (List ToolResult × List String)
  | [] => .ok ([], [])
  | dbName :: rest =>
    match pyLookup dbName schemas with
    | none => runDbLoop lm tools schemas history u currentDate rest
    | some schema =>
      if truthy schema = false then
        runDbLoop lm tools schemas history u currentDate rest
      else
        match lm.generateToolCalls u currentDate schema history with
        | .error e => .error e
        | .ok calls =>
          let results := calls.filterMap (fun c =>
            if toolNames.contains c.name then
              some (ToolResult.mk c.name (tools c.name c.args))
            else none)
          match runDbLoop lm tools schemas history u currentDate rest with
          | .error e => .error e
          | .ok (rs, syn) => .ok (results ++ rs, dbName :: syn)

/-- The observable outcome of one `execute` call: the returned response or the
propagated exception, the interaction log after the call, and the database
names for which `generate_tool_calls` was invoked. -/
structure ExecOutcome where
  result : Except String String
  memory : List (String × String)
  synthesized : List String
deriving Repr

/-- `ProcessMessageUseCase.execute`: select databases; on an empty selection
compose a plain chat response over no tool results and record the
interaction; otherwise run the per-database loop, compose over the collected
results, and record the interaction.  Any raise propagates (the
`except … raise` at the orchestrator boundary re-raises) and leaves the
interaction log untouched. -/
def executeModel (lm : LangModel) (tools : String → PyVal → PyVal)
    (schemas : PyDict) (history : List PyVal) (mem : List (String × String))
    (u currentDate : String) : ExecOutcome :=
  match lm.selectDatabases u currentDate history with
  | .error e => ⟨.error e, mem, []⟩
  | .ok names =>
    if names.isEmpty then
      match lm.generateResponse u [] history with
      | .error e => ⟨.error e, mem, []⟩
      | .ok resp => ⟨.ok resp, mem ++ [(u, resp)], []⟩
    else
      match runDbLoop lm tools schemas history u currentDate names with
      | .error e => ⟨.error e, mem, []⟩
      | .ok (results, syn) =>
        match lm.generateResponse u results history with
        | .error e => ⟨.error e, mem, syn⟩
        | .ok resp => ⟨.ok resp, mem ++ [(u, resp)], syn⟩

/-- The generic apology the LINE controller sends when `execute` raises. -/
def lineApology : String := "申し訳ありません、システムエラーが発生しました。"

/-- `LineController._handle_text_message` (synchronous path): run the use
case; reply with its response on success, or with the generic apology when it
raises.  Returns the reply text and the interaction log after the request. -/
def handleTextMessage (lm : LangModel) (tools : String → PyVal → PyVal)
    (schemas : PyDict) (history : List PyVal) (mem : List (String × String))
    (u currentDate : String) : String × List (String × String) :=
  let out := executeModel lm tools schemas history mem u currentDate
  match out.result with
  | .ok resp => (resp, out.memory)
  | .error _ => (lineApology, out.memory)

/-- An LLM oracle whose database selection raises an unexpected exception. -/
def crashingLM : LangModel where
  selectDatabases := fun _ _ _ => .error "boom"
  generateToolCalls := fun _ _ _ _ => .ok []
  generateResponse := fun _ _ _ => .ok ""

/-- An LLM oracle that selects no database and echoes the utterance. -/
def smallTalkLM : LangModel where
  selectDatabases := fun _ _ _ => .ok []
  generateToolCalls := fun _ _ _ _ => .ok []
  generateResponse := fun u _ _ => .ok ("echo:" ++ u)

/-! ## Theorems -/

/-- If the resolved type tag is the string `s`, a one-entry dictionary keyed
by `s` passes the `isinstance(value, dict) and prop_type in value` test. -/
lemma alreadyWrapped_single (t : Option PyVal) (s : String) (x : PyVal)
    (h : typeTag t = some s) : alreadyWrapped t (.vDict [(s, x)]) = true := by
  simp [alreadyWrapped, h, hasKey, pyLookup]

/-- The conversion ladder either produces a value that the pass-through test
accepts (a wrapper dict keyed by the resolved type tag) or leaves the value
unchanged. -/
lemma convertValue_wrapped_or_id (t : Option PyVal) (v : PyVal) :
    alreadyWrapped t (convertValue t v) = true ∨ convertValue t v = v := by
  unfold convertValue
  split_ifs with h1 h2 h3 h4 h5 h6 h7 h8 h9
  · cases v with
    | vStr s => exact Or.inl (alreadyWrapped_single t _ _ h1)
    | vBool b => right; rfl
    | vNum q => right; rfl
    | vList xs => right; rfl
    | vDict d => right; rfl
    | vNone => right; rfl
  · cases v with
    | vStr s => exact Or.inl (alreadyWrapped_single t _ _ h2)
    | vBool b => right; rfl
    | vNum q => right; rfl
    | vList xs => right; rfl
    | vDict d => right; rfl
    | vNone => right; rfl
  · cases v with
    | vStr s => exact Or.inl (alreadyWrapped_single t _ _ h3)
    | vList xs => exact Or.inl (alreadyWrapped_single t _ _ h3)
    | vBool b => right; rfl
    | vNum q => right; rfl
    | vDict d => right; rfl
    | vNone => right; rfl
  · cases v with
    | vStr s => exact Or.inl (alreadyWrapped_single t _ _ h4)
    | vBool b => right; rfl
    | vNum q => right; rfl
    | vList xs => right; rfl
    | vDict d => right; rfl
    | vNone => right; rfl
  · exact Or.inl (alreadyWrapped_single t _ _ h5)
  · cases v with
    | vStr s => exact Or.inl (alreadyWrapped_single t _ _ h6)
    | vBool b => right; rfl
    | vNum q => right; rfl
    | vList xs => right; rfl
    | vDict d => right; rfl
    | vNone => right; rfl
  · cases hf : pyFloat v with
    | some q => exact Or.inl (alreadyWrapped_single t _ _ h7)
    | none => right; rfl
  · exact Or.inl (alreadyWrapped_single t _ _ h8)
  · cases v with
    | vStr s => exact Or.inl (alreadyWrapped_single t _ _ h9)
    | vBool b => right; rfl
    | vNum q => right; rfl
    | vList xs => right; rfl
    | vDict d => right; rfl
    | vNone => right; rfl
  · right; rfl

/-- A single property value is unchanged by a second pass through the
formatting loop body. -/
lemma formatValue_idem (t : Option PyVal) (v : PyVal) :
    formatValue t (formatValue t v) = formatValue t v := by
  unfold formatValue
  cases hA : alreadyWrapped t v with
  | true => simp [hA]
  | false =>
    simp only [Bool.false_eq_true, if_false]
    rcases convertValue_wrapped_or_id t v with hw | hv
    · simp [hw]
    · rw [hv, hA]
      simp [hv]

/-- C2: For every database name and every raw-property mapping, applying the
property formatter twice equals applying it once — values already in the
store's typed wrapper form (a dict whose own key matches the resolved type)
pass through unchanged, and every wrapper the formatter produces is of that
form. -/
theorem format_properties_idempotent (m : PyDict) (databaseName : String)
    (props : PyDict) :
    formatPropertiesForApi m databaseName (formatPropertiesForApi m databaseName props) =
      formatPropertiesForApi m databaseName props := by
  induction props with
  | nil => rfl
  | cons p ps ih =>
    simp only [formatPropertiesForApi, List.map_cons] at ih ⊢
    rw [formatValue_idem]
    exact congrArg (List.cons _) ih

/-- C3: For a property whose type does not resolve against the schema
(the property is absent from the schema, or the schema itself is unknown),
the filter builder emits the "contains" rich-text predicate exactly when the
supplied value is a string, and emits nothing otherwise. -/
theorem filter_unknown_property_contains_iff_string (m : PyDict)
    (databaseName prop : String) (v : PyVal)
    (h : resolvePropertyType m databaseName prop = none) :
    buildFilterEntry (resolvePropertyType m databaseName prop) prop v =
      match v with
      | .vStr s => some (.vDict [("property", .vStr prop),
          ("rich_text", .vDict [("contains", .vStr s)])])
      | _ => none := by
  rw [h]
  unfold buildFilterEntry
  simp only [typeTag]
  cases v <;> rfl

/-- Witness for C3 at a concrete input: the empty registry knows no schema
`todo_list`, and the string value `"work"` for property `Category` yields the
"contains" predicate. -/
theorem filter_unknown_property_contains_iff_string_witness :
    buildFilterEntry (resolvePropertyType [] "todo_list" "Category") "Category"
        (.vStr "work") =
      some (.vDict [("property", .vStr "Category"),
        ("rich_text", .vDict [("contains", .vStr "work")])]) :=
  filter_unknown_property_contains_iff_string [] "todo_list" "Category"
    (.vStr "work") rfl

/-- C4: For a property declared with type `checkbox`, the filter builder
produces exactly the equality predicate
`{"property": P, "checkbox": {"equals": v}}`. -/
theorem filter_checkbox_equality (m : PyDict) (databaseName prop : String)
    (v : PyVal)
    (h : resolvePropertyType m databaseName prop = some (.vStr "checkbox")) :
    buildFilterEntry (resolvePropertyType m databaseName prop) prop v =
      some (.vDict [("property", .vStr prop),
        ("checkbox", .vDict [("equals", v)])]) := by
  rw [h]
  rfl

/-- Witness for C4 at the spec's concrete scenario: a schema where `Done` is a
checkbox and the condition mapping `{"Done": false}` yield exactly
`{"property": "Done", "checkbox": {"equals": false}}`. -/
theorem filter_checkbox_equality_witness :
    buildConditionFilters
        [("tasks", .vDict [("id", .vStr "deadbeefdeadbeefdeadbeefdeadbeef"),
          ("properties", .vDict [("Done", .vDict [("type", .vStr "checkbox")])])])]
        "tasks" [("Done", .vBool false)] =
      [.vDict [("property", .vStr "Done"),
        ("checkbox", .vDict [("equals", .vBool false)])]] := by
  have h : resolvePropertyType
      [("tasks", .vDict [("id", .vStr "deadbeefdeadbeefdeadbeefdeadbeef"),
        ("properties", .vDict [("Done", .vDict [("type", .vStr "checkbox")])])])]
      "tasks" "Done" = some (.vStr "checkbox") := rfl
  have := filter_checkbox_equality _ "tasks" "Done" (.vBool false) h
  simp [buildConditionFilters, List.filterMap_cons, this]

lemma pySliceLast_length_le (n : Nat) (hn : 0 < n) (xs : List PyVal) :
    (pySliceLast n xs).length ≤ n := by
  unfold pySliceLast
  rw [if_neg (Nat.pos_iff_ne_zero.mp hn)]
  rw [List.length_drop]
  omega

lemma newWindow_length_le (now limitMinutes : Int) (maxHistoryLength : Nat)
    (hmax : 0 < maxHistoryLength) (doc : Option SessionDoc) (u r : String) :
    (newWindow now limitMinutes maxHistoryLength doc u r).length ≤
      maxHistoryLength := by
  unfold newWindow
  set nh := addBase now limitMinutes doc ++ [userTurn u, modelTurn r] with hnh
  by_cases h : maxHistoryLength < nh.length
  · rw [if_pos h]
    exact pySliceLast_length_le _ hmax _
  · rw [if_neg h]
    omega

/-- C5: after any nonempty finite sequence of `add_interaction` calls, the
stored Conversation Window's length never exceeds the configured maximum
(`SESSION_MAX_HISTORY_LENGTH`, a positive configuration value), and the trim
discards oldest turns first: the stored window is always a suffix of
base-plus-new-turns. -/
theorem session_window_bounded (limitMinutes : Int) (maxHistoryLength : Nat)
    (doc : Option SessionDoc) (steps : List (Int × String × String))
    (hmax : 0 < maxHistoryLength) (hne : steps ≠ []) :
    storedLength (runInteractions limitMinutes maxHistoryLength doc steps) ≤
        maxHistoryLength ∧
      ∀ now u r d, (newWindow now limitMinutes maxHistoryLength d u r).IsSuffix
        (addBase now limitMinutes d ++ [userTurn u, modelTurn r]) := by
  constructor
  · rcases List.eq_nil_or_concat steps with h | ⟨init, last, h⟩
    · exact absurd h hne
    · subst h
      rw [List.concat_eq_append]
      unfold runInteractions
      rw [List.foldl_append]
      simp only [List.foldl_cons, List.foldl_nil, addInteraction, Bool.not_true,
        Bool.false_eq_true, if_false, storedLength]
      exact newWindow_length_le _ _ _ hmax _ _ _
  · intro now u r d
    unfold newWindow
    by_cases h : maxHistoryLength <
        (addBase now limitMinutes d ++ [userTurn u, modelTurn r]).length
    · rw [if_pos h]
      unfold pySliceLast
      split
      · exact List.suffix_refl _
      · exact List.drop_suffix _ _
    · rw [if_neg h]

/-- Witness for C5 at a concrete input: three interactions against an
initially absent document with maximum 4 leave at most 4 stored turns. -/
theorem session_window_bounded_witness :
    storedLength (runInteractions 5 4 none
        [(0, "a", "b"), (60, "c", "d"), (120, "e", "f")]) ≤ 4 :=
  (session_window_bounded 5 4 none
    [(0, "a", "b"), (60, "c", "d"), (120, "e", "f")]
    (by decide) (by decide)).1

/-- C6: a session whose stored last-updated timestamp is older than
`limitMinutes` at read time yields an empty history from `get_recent_history`
(the read does not modify the stored document — it is a pure function of it),
and the next `add_interaction` (also past the limit) starts a fresh window
containing only the new user and model turns. -/
theorem expired_window_read_empty_write_fresh (now writeTime limitMinutes ts : Int)
    (maxHistoryLength : Nat) (storedHistory : List PyVal) (u r : String)
    (hread : now - ts > limitMinutes * 60)
    (hwrite : writeTime - ts > limitMinutes * 60)
    (hmax : 2 ≤ maxHistoryLength) :
    getRecentHistory true now limitMinutes
        (some { history := storedHistory, updatedAt := some ts }) = [] ∧
      addInteraction true writeTime limitMinutes maxHistoryLength
          (some { history := storedHistory, updatedAt := some ts }) u r =
        some { history := [userTurn u, modelTurn r], updatedAt := some writeTime } := by
  constructor
  · unfold getRecentHistory
    simp only [Bool.not_true, Bool.false_eq_true, if_false]
    rw [if_pos hread]
  · unfold addInteraction newWindow addBase
    simp only [Bool.not_true, Bool.false_eq_true, if_false]
    rw [if_neg (by omega : ¬ writeTime - ts ≤ limitMinutes * 60)]
    simp only [List.nil_append, List.length_cons, List.length_nil]
    rw [if_neg (by omega : ¬ maxHistoryLength < 0 + 1 + 1)]

/-- Witness for C6 at a concrete input: limit 5 minutes, last update at epoch
second 0, read at second 301·60, write at second 302·60, maximum 40. -/
theorem expired_window_read_empty_write_fresh_witness :
    getRecentHistory true (301 * 60) 5
        (some { history := [userTurn "old", modelTurn "old2"], updatedAt := some 0 }) = [] ∧
      addInteraction true (302 * 60) 5 40
          (some { history := [userTurn "old", modelTurn "old2"], updatedAt := some 0 })
          "hi" "hello" =
        some { history := [userTurn "hi", modelTurn "hello"],
               updatedAt := some (302 * 60) } :=
  expired_window_read_empty_write_fresh (301 * 60) (302 * 60) 5 0 40
    [userTurn "old", modelTurn "old2"] "hi" "hello"
    (by norm_num) (by norm_num) (by norm_num)

/-- C10: every turn returned by `get_recent_history` is a dict containing both
`'role'` and `'parts'`; the same validity filter produces the base history
used by the next `add_interaction`; and on a live window both are exactly the
stored history with invalid entries dropped. -/
theorem history_turns_validated (now limitMinutes : Int)
    (doc : Option SessionDoc) :
    (∀ t ∈ getRecentHistory true now limitMinutes doc, validTurn t = true) ∧
      (∀ t ∈ addBase now limitMinutes doc, validTurn t = true) ∧
      (∀ storedHistory ts, now - ts ≤ limitMinutes * 60 →
        getRecentHistory true now limitMinutes
            (some { history := storedHistory, updatedAt := some ts }) =
          storedHistory.filter validTurn ∧
        addBase now limitMinutes
            (some { history := storedHistory, updatedAt := some ts }) =
          storedHistory.filter validTurn) := by
  refine ⟨?_, ?_, ?_⟩
  · intro t ht
    unfold getRecentHistory at ht
    simp only [Bool.not_true, Bool.false_eq_true, if_false] at ht
    rcases doc with _ | ⟨hist, _ | ts⟩
    · simp at ht
    · simp at ht
    · dsimp only at ht
      by_cases hexp : now - ts > limitMinutes * 60
      · rw [if_pos hexp] at ht; simp at ht
      · rw [if_neg hexp] at ht
        exact List.of_mem_filter ht
  · intro t ht
    unfold addBase at ht
    rcases doc with _ | ⟨hist, _ | ts⟩
    · simp at ht
    · simp at ht
    · dsimp only at ht
      by_cases hfresh : now - ts ≤ limitMinutes * 60
      · rw [if_pos hfresh] at ht
        exact List.of_mem_filter ht
      · rw [if_neg hfresh] at ht; simp at ht
  · intro storedHistory ts hfresh
    constructor
    · unfold getRecentHistory
      simp only [Bool.not_true, Bool.false_eq_true, if_false]
      rw [if_neg (by omega : ¬ now - ts > limitMinutes * 60)]
    · unfold addBase
      dsimp only
      rw [if_pos hfresh]

/-- Witness for C10 at a concrete input: a stored history mixing valid turns
with a string, a dict missing `'parts'`, and `None` returns only the valid
turns. -/
theorem history_turns_validated_witness :
    getRecentHistory true 10 5
        (some (SessionDoc.mk
          [userTurn "a", PyVal.vStr "junk",
            PyVal.vDict [("role", PyVal.vStr "user")], PyVal.vNone, modelTurn "b"]
          (some 0))) =
      [userTurn "a", modelTurn "b"] := by
  have h := (history_turns_validated 10 5
      (some (SessionDoc.mk
        [userTurn "a", PyVal.vStr "junk",
          PyVal.vDict [("role", PyVal.vStr "user")], PyVal.vNone, modelTurn "b"]
        (some 0)))).2.2
      [userTurn "a", PyVal.vStr "junk", PyVal.vDict [("role", PyVal.vStr "user")],
        PyVal.vNone, modelTurn "b"] 0 (by norm_num)
  rw [h.1]
  rfl

lemma resolveDatabaseId_of_not_mem (m : PyDict) (n : String)
    (h : pyLookup n m = none) : resolveDatabaseId m n = none := by
  unfold resolveDatabaseId
  rw [h]
  split <;> rfl

/-- C8: a search or create operation naming a logical database that is not a
key of the Schema Registry mapping returns an explicit "not found" error
result that names the missing database, rather than raising. -/
theorem unknown_database_explicit_not_found (uuidParse : String → Option String)
    (m : PyDict) (n title : String) (props : Option PyDict)
    (hn : n ≠ "") (h : pyLookup n m = none) :
    searchResolvePhase true uuidParse m (some n) =
        .error ("Database '" ++ n ++
          "' not found in configuration. Available keys: " ++ keysRepr m) ∧
      createPage true uuidParse m n title props =
        .error ("Database '" ++ n ++ "' not found.") := by
  have hr := resolveDatabaseId_of_not_mem m n h
  constructor
  · unfold searchResolvePhase
    simp only [Bool.not_true, Bool.false_eq_true, if_false]
    rw [if_pos hn, hr]
  · unfold createPage
    simp only [Bool.not_true, Bool.false_eq_true, if_false]
    rw [hr]

/-- Witness for C8 at a concrete input: the registry only knows `todo_list`,
and both operations report `ghost_db` as not found. -/
theorem unknown_database_explicit_not_found_witness :
    searchResolvePhase true (fun s => some s)
        [("todo_list", PyVal.vDict [("id", PyVal.vStr "abc")])] (some "ghost_db") =
      Except.error
        "Database 'ghost_db' not found in configuration. Available keys: ['todo_list']" ∧
    createPage true (fun s => some s)
        [("todo_list", PyVal.vDict [("id", PyVal.vStr "abc")])] "ghost_db" "t" none =
      Except.error "Database 'ghost_db' not found." :=
  unknown_database_explicit_not_found (fun s => some s)
    [("todo_list", PyVal.vDict [("id", PyVal.vStr "abc")])] "ghost_db" "t" none
    (by decide) rfl

lemma pyLookup_mapReplace_self (d : PyDict) (k : String) (v : PyVal)
    (h : hasKey d k = true) :
    pyLookup k (d.map (fun p => if p.1 = k then (k, v) else p)) = some v := by
  induction d with
  | nil => simp [hasKey, pyLookup] at h
  | cons p ps ih =>
    by_cases hp : p.1 = k
    · simp [pyLookup, hp]
    · have hps : hasKey ps k = true := by
        simpa [hasKey, pyLookup, hp] using h
      simp only [List.map_cons, if_neg hp]
      rw [pyLookup, if_neg hp]
      exact ih hps

lemma pyLookup_mapReplace_ne (d : PyDict) (k k' : String) (v : PyVal)
    (h : k' ≠ k) :
    pyLookup k' (d.map (fun p => if p.1 = k then (k, v) else p)) =
      pyLookup k' d := by
  induction d with
  | nil => rfl
  | cons p ps ih =>
    by_cases hp : p.1 = k
    · have hne : ¬ k = k' := fun e => h e.symm
      simp only [List.map_cons, if_pos hp]
      rw [pyLookup, if_neg hne, pyLookup, if_neg (hp ▸ hne), ih]
    · simp only [List.map_cons, if_neg hp]
      by_cases hk' : p.1 = k'
      · rw [pyLookup, if_pos hk', pyLookup, if_pos hk']
      · rw [pyLookup, if_neg hk', pyLookup, if_neg hk', ih]

lemma pyLookup_append_right (d tail : PyDict) (k : String)
    (h : pyLookup k d = none) :
    pyLookup k (d ++ tail) = pyLookup k tail := by
  induction d with
  | nil => rfl
  | cons p ps ih =>
    rw [pyLookup] at h
    by_cases hp : p.1 = k
    · rw [if_pos hp] at h; exact absurd h (by simp)
    · rw [if_neg hp] at h
      rw [List.cons_append, pyLookup, if_neg hp]
      exact ih h

lemma hasKey_false_lookup_none (d : PyDict) (k : String)
    (h : hasKey d k = false) : pyLookup k d = none := by
  unfold hasKey at h
  exact Option.not_isSome_iff_eq_none.mp (by simp [h])

lemma dictSet_lookup_self (d : PyDict) (k : String) (v : PyVal) :
    pyLookup k (dictSet d k v) = some v := by
  unfold dictSet
  cases h : hasKey d k with
  | true => rw [if_pos rfl]; exact pyLookup_mapReplace_self d k v h
  | false =>
    simp only [Bool.false_eq_true, if_false]
    rw [pyLookup_append_right d _ k (hasKey_false_lookup_none d k h)]
    simp [pyLookup]

lemma pyLookup_append_single_ne (d : PyDict) (k k' : String) (v : PyVal)
    (h : k' ≠ k) : pyLookup k' (d ++ [(k, v)]) = pyLookup k' d := by
  have hk : ¬ k = k' := fun e => h e.symm
  induction d with
  | nil => simp [pyLookup, hk]
  | cons p ps ih =>
    by_cases hp : p.1 = k'
    · simp [pyLookup, hp]
    · simp [pyLookup, hp, ih]

lemma dictSet_lookup_ne (d : PyDict) (k k' : String) (v : PyVal) (h : k' ≠ k) :
    pyLookup k' (dictSet d k v) = pyLookup k' d := by
  unfold dictSet
  cases hk : hasKey d k with
  | true => rw [if_pos rfl]; exact pyLookup_mapReplace_ne d k k' v h
  | false =>
    simp only [Bool.false_eq_true, if_false]
    exact pyLookup_append_single_ne d k k' v h

/-- C9: in every successful `create_page` payload, the schema's resolved title
property maps to the wrapped explicit `title` argument (it wins even when the
caller's `properties` also supplies that key), and every other key of the
payload is exactly its formatted value from the caller's properties. -/
theorem create_page_title_precedence (uuidParse : String → Option String)
    (m : PyDict) (databaseName title : String) (properties : Option PyDict)
    (payload : PyDict)
    (h : createPage true uuidParse m databaseName title properties = .ok payload) :
    pyLookup (resolveTitleProperty m databaseName) payload =
        some (titleWrapper title) ∧
      ∀ k, k ≠ resolveTitleProperty m databaseName →
        pyLookup k payload =
          pyLookup k (formatPropertiesForApi m databaseName
            (properties.getD [])) := by
  unfold createPage at h
  simp only [Bool.not_true, Bool.false_eq_true, if_false] at h
  cases hr : resolveDatabaseId m databaseName with
  | none => rw [hr] at h; simp at h
  | some dbId =>
    rw [hr] at h
    dsimp only at h
    cases hu : uuidParse dbId with
    | none => rw [hu] at h; simp at h
    | some normId =>
      rw [hu] at h
      simp only [Except.ok.injEq] at h
      subst h
      exact ⟨dictSet_lookup_self _ _ _, fun k hk => dictSet_lookup_ne _ _ _ _ hk⟩

/-- Witness for C9 at a concrete input: the caller also supplies `Name`
(the title property), yet the payload carries the explicit title `"milk"`,
while `Done` keeps its formatted value. -/
theorem create_page_title_precedence_witness :
    createPage true (fun s => some s)
        [("shopping", PyVal.vDict [("id", PyVal.vStr "abc"),
          ("properties", PyVal.vDict [("Name", PyVal.vDict [("type", PyVal.vStr "title")]),
            ("Done", PyVal.vDict [("type", PyVal.vStr "checkbox")])])])]
        "shopping" "milk"
        (some [("Name", PyVal.vStr "ignored"), ("Done", PyVal.vBool true)]) =
      Except.ok [("Name", titleWrapper "milk"),
        ("Done", PyVal.vDict [("checkbox", PyVal.vBool true)])] ∧
    pyLookup "Name"
        [("Name", titleWrapper "milk"),
          ("Done", PyVal.vDict [("checkbox", PyVal.vBool true)])] =
      some (titleWrapper "milk") := by
  have h := create_page_title_precedence (fun s => some s)
    [("shopping", PyVal.vDict [("id", PyVal.vStr "abc"),
      ("properties", PyVal.vDict [("Name", PyVal.vDict [("type", PyVal.vStr "title")]),
        ("Done", PyVal.vDict [("type", PyVal.vStr "checkbox")])])])]
    "shopping" "milk"
    (some [("Name", PyVal.vStr "ignored"), ("Done", PyVal.vBool true)])
    [("Name", titleWrapper "milk"),
      ("Done", PyVal.vDict [("checkbox", PyVal.vBool true)])] rfl
  exact ⟨rfl, h.1⟩

lemma executeModel_error_memory (lm : LangModel) (tools : String → PyVal → PyVal)
    (schemas : PyDict) (history : List PyVal) (mem : List (String × String))
    (u currentDate e : String)
    (h : (executeModel lm tools schemas history mem u currentDate).result = .error e) :
    (executeModel lm tools schemas history mem u currentDate).memory = mem := by
  unfold executeModel at h ⊢
  cases hsel : lm.selectDatabases u currentDate history with
  | error e1 => rfl
  | ok names =>
    rw [hsel] at h
    dsimp only at h ⊢
    by_cases hn : names.isEmpty
    · rw [if_pos hn] at h ⊢
      cases hresp : lm.generateResponse u [] history with
      | error e2 => rfl
      | ok resp => rw [hresp] at h; simp at h
    · rw [if_neg hn] at h ⊢
      cases hloop : runDbLoop lm tools schemas history u currentDate names with
      | error e2 => rfl
      | ok pr =>
        obtain ⟨results, syn⟩ := pr
        rw [hloop] at h
        dsimp only at h ⊢
        cases hresp : lm.generateResponse u results history with
        | error e2 => rfl
        | ok resp => rw [hresp] at h; simp at h

/-- C1 as stated is false on the code: when a pipeline stage raises, the
controller replies with the generic apology, but the interaction is NOT
appended to Conversation Memory — here the selection stage raises and the
interaction log is still empty after the request. -/
theorem orchestrator_failure_memory_counterexample :
    (handleTextMessage crashingLM (fun _ _ => PyVal.vNone) [] [] [] "hi"
        "2026-10-12").1 = lineApology ∧
      (handleTextMessage crashingLM (fun _ _ => PyVal.vNone) [] [] [] "hi"
        "2026-10-12").2 = [] :=
  ⟨rfl, rfl⟩

/-- C1 (amended): for every interaction in which some pipeline stage raises an
unexpected error, the failure propagates out of `execute` (whose handler
re-raises), is caught at the controller boundary, and the user receives the
generic apology — but the `(utterance, response)` interaction is not appended
to Conversation Memory; the interaction log is exactly what it was before the
request. -/
theorem orchestrator_failure_apology_memory_unchanged (lm : LangModel)
    (tools : String → PyVal → PyVal) (schemas : PyDict) (history : List PyVal)
    (mem : List (String × String)) (u currentDate e : String)
    (h : (executeModel lm tools schemas history mem u currentDate).result = .error e) :
    handleTextMessage lm tools schemas history mem u currentDate =
      (lineApology, mem) := by
  unfold handleTextMessage
  dsimp only
  rw [h, executeModel_error_memory lm tools schemas history mem u currentDate e h]

/-- Witness for the amended C1 at a concrete input: the crashing selection
stage yields the apology and an unchanged (empty) interaction log. -/
theorem orchestrator_failure_apology_memory_unchanged_witness :
    handleTextMessage crashingLM (fun _ _ => PyVal.vNone) [] [] [] "hi"
        "2026-10-12" = (lineApology, []) :=
  orchestrator_failure_apology_memory_unchanged crashingLM
    (fun _ _ => PyVal.vNone) [] [] [] "hi" "2026-10-12" "boom" rfl

/-- C7: whenever the Database Selector returns an empty list, the orchestrator
composes a response over an empty results list, never invokes the Operation
Synthesizer (`generate_tool_calls` — the `synthesized` trace is empty), and
appends the interaction to Conversation Memory when composition succeeds. -/
theorem empty_selection_composes_without_synthesis (lm : LangModel)
    (tools : String → PyVal → PyVal) (schemas : PyDict) (history : List PyVal)
    (mem : List (String × String)) (u currentDate : String)
    (hsel : lm.selectDatabases u currentDate history = .ok []) :
    executeModel lm tools schemas history mem u currentDate =
      match lm.generateResponse u [] history with
      | .error e => ⟨.error e, mem, []⟩
      | .ok resp => ⟨.ok resp, mem ++ [(u, resp)], []⟩ := by
  unfold executeModel
  rw [hsel]
  rfl

/-- Witness for C7 at a concrete input: an oracle that selects no database
yields the echo response over no tool results, records the interaction, and
synthesizes for no database. -/
theorem empty_selection_composes_without_synthesis_witness :
    executeModel smallTalkLM (fun _ _ => PyVal.vNone) [] [] [] "hello"
        "2026-10-12" =
      ⟨.ok "echo:hello", [("hello", "echo:hello")], []⟩ :=
  empty_selection_composes_without_synthesis smallTalkLM
    (fun _ _ => PyVal.vNone) [] [] [] "hello" "2026-10-12" rfl

end NotiGenie
